import Mathlib

/-!
Verification of the scheduling-api time-slot service against its specification.

The development shallowly embeds `src/services/timeSlotService.js` (the
authoritative service class) together with the SQL it issues against the
`time_slots` table.  Timestamps are modelled as integers counting minutes since
the Unix epoch (every timestamp handled by the service has minute granularity),
the `time_slots` table is a list of `Slot` records, and each service method —
which runs inside `withTransaction`, i.e. atomically — becomes a pure function
from a database state to an `Except` result paired with the new state.
Database errors thrown via `AppError` become constructors of `Err` named after
the corresponding message strings.
-/

/-- One row of the `time_slots` table (see `src/db/init.sql` plus the
`recurring_pattern_id` column referenced by the service's queries). -/
structure Slot where
  id : Nat
  consultant_id : Nat
  customer_id : Option Nat
  start_time : Int
  end_time : Int
  is_booked : Bool
  is_cancelled : Bool
  recurring_pattern_id : Option Nat
deriving DecidableEq, Repr

/-- The `AppError`s thrown by `timeSlotService.js`, one constructor per
message string. -/
inductive Err where
  /-- message string: Invalid date/time format -/
  | invalidFormat
  /-- message string: End time must be after start time -/
  | endNotAfterStart
  /-- message string: Cannot create slots in the past -/
  | pastStart
  /-- message string: Invalid slot duration -/
  | invalidDuration
  /-- message string: Time slot overlaps with existing slot -/
  | slotOverlap
  /-- message string: Time slot not found -/
  | slotNotFound
  /-- message string: Time slot is not available -/
  | slotUnavailable
  /-- message string: Cannot delete booked time slots -/
  | cannotDeleteBooked
deriving DecidableEq, Repr

/-- Booking update applied by the `UPDATE time_slots SET is_booked = true,
customer_id = $1 ...` statement of `reserveTimeSlot`. -/
def bookSlot (customerId : Nat) (s : Slot) : Slot :=
  { s with is_booked := true, customer_id := some customerId }

/-- Effect of `UPDATE time_slots SET is_booked = true, customer_id = $1
WHERE id = $2 AND NOT is_booked` on the table. -/
def applyReserveUpdate (slotId customerId : Nat) (db : List Slot) : List Slot :=
  db.map (fun s => if s.id == slotId && !s.is_booked then bookSlot customerId s else s)

/-- Embedding of `reserveTimeSlot(slotId, customerId)`.  The whole method runs
inside `withTransaction` with `SELECT ... FOR UPDATE`, which takes a row lock
on the slot for the duration of the transaction; concurrent transactions on
the same slot are therefore serialized, and a group of concurrent calls is
modelled as the sequential execution of the calls in their (arbitrary)
serialization order.  An error result models a rolled-back transaction, so it
leaves the database unchanged. -/
def reserveTimeSlot (db : List Slot) (slotId customerId : Nat) :
    Except Err (Slot × List Slot) :=
  match db.find? (fun s => s.id == slotId) with
  | none => .error .slotNotFound
  | some slot =>
    if slot.is_booked then .error .slotUnavailable
    else if db.any (fun s => s.id == slotId && !s.is_booked) then
      .ok (bookSlot customerId slot, applyReserveUpdate slotId customerId db)
    else .error .slotUnavailable

/-- Runs one `reserveTimeSlot` transaction per customer id, in the given
serialization order, threading the database state; a failing transaction rolls
back and leaves the state unchanged. -/
def reserveAll (db : List Slot) (slotId : Nat) :
    List Nat → List (Except Err Slot) × List Slot
  | [] => ([], db)
  | c :: cs =>
    match reserveTimeSlot db slotId c with
    | .ok (slot, db') =>
      let r := reserveAll db' slotId cs
      (.ok slot :: r.1, r.2)
    | .error e =>
      let r := reserveAll db slotId cs
      (.error e :: r.1, r.2)

/-- Whether an `Except` result is a success. -/
def isSuccess (r : Except Err Slot) : Bool :=
  match r with
  | .ok _ => true
  | .error _ => false

/-- Proleptic-Gregorian leap-year rule used by the date library underlying
`moment`. -/
def isLeapYear (y : Int) : Bool :=
  (y % 4 == 0 && y % 100 != 0) || y % 400 == 0

/-- Number of days in month `m` (1–12) of year `y`. -/
def daysInMonth (y m : Int) : Int :=
  if m = 1 ∨ m = 3 ∨ m = 5 ∨ m = 7 ∨ m = 8 ∨ m = 10 ∨ m = 12 then 31
  else if m = 2 then (if isLeapYear y then 29 else 28)
  else 30

/-- Days since 1970-01-01 of the civil date `(y, m, d)` (standard civil-days
conversion, as performed by the JavaScript date machinery the service relies
on). -/
def daysFromCivil (y m d : Int) : Int :=
  let y' := if m ≤ 2 then y - 1 else y
  let era := y' / 400
  let yoe := y' - era * 400
  let mp := if 2 < m then m - 3 else m + 9
  let doy := (153 * mp + 2) / 5 + d - 1
  let doe := yoe * 365 + yoe / 4 - yoe / 100 + doy
  era * 146097 + doe - 719468

/-- Civil date `(y, m, d)` of a count of days since 1970-01-01 (inverse of
`daysFromCivil`). -/
def civilFromDays (z : Int) : Int × Int × Int :=
  let z' := z + 719468
  let era := z' / 146097
  let doe := z' - era * 146097
  let yoe := (doe - doe / 1460 + doe / 36524 - doe / 146096) / 365
  let y := yoe + era * 400
  let doy := doe - (365 * yoe + yoe / 4 - yoe / 100)
  let mp := (5 * doy + 2) / 153
  let d := doy - (153 * mp + 2) / 5 + 1
  let m := if mp < 10 then mp + 3 else mp - 9
  (if m ≤ 2 then y + 1 else y, m, d)

/-- UTC instant (minutes since the epoch) of a civil UTC date-time. -/
def utcMinutes (y m d hh mi : Int) : Int :=
  daysFromCivil y m d * 1440 + hh * 60 + mi

/-- Day number of an instant; embeds the SQL `DATE(timestamp)` truncation. -/
def dayOfMinutes (t : Int) : Int := t / 1440

/-- Minute-of-day of an instant. -/
def minuteOfDay (t : Int) : Int := t % 1440

/-- Embeds SQL `EXTRACT(YEAR FROM timestamp)`. -/
def yearOfMinutes (t : Int) : Int := (civilFromDays (dayOfMinutes t)).1

/-- Embeds SQL `EXTRACT(MONTH FROM timestamp)`. -/
def monthOfMinutes (t : Int) : Int := (civilFromDays (dayOfMinutes t)).2.1

/-- Embeds `moment(t).add(1, 'month')`: advance the calendar month by one,
clamping the day-of-month to the target month's length and keeping the
time-of-day.  (The process runs with its clock in UTC, so local-mode moment
arithmetic coincides with UTC arithmetic.) -/
def addOneMonth (t : Int) : Int :=
  let c := civilFromDays (dayOfMinutes t)
  let y' := if c.2.1 = 12 then c.1 + 1 else c.1
  let m' := if c.2.1 = 12 then 1 else c.2.1 + 1
  daysFromCivil y' m' (min c.2.2 (daysInMonth y' m')) * 1440 + minuteOfDay t

/-- The `recurring` request object as consumed by `#generateRecurringSlots`:
its `frequency` string, and the UTC instant denoted by
`moment.tz(recurring.until, timezone)`.  (`day_of_week` / `day_of_month` are
accepted by the API validator but never read by the service.) -/
structure Recurring where
  frequency : String
  untilDate : Int
deriving DecidableEq, Repr

/-- The `while (current.isSameOrBefore(until))` loop body of
`#generateRecurringSlots`: push `(current, current + duration)`, then advance
`current` by one week for the `'weekly'` frequency, by one calendar month for
`'monthly'`, and not at all for any other frequency string.  The loop is given
fuel; `none` models a run that is still looping when the fuel is exhausted, so
a loop that never terminates returns `none` for every fuel. -/
def genLoop (duration : Int) (frequency : String) (untilT : Int) :
    Nat → Int → List (Int × Int) → Option (List (Int × Int))
  | 0, _, _ => none
  | Nat.succ fuel, current, acc =>
    if current ≤ untilT then
      genLoop duration frequency untilT fuel
        (if frequency = "weekly" then current + 7 * 1440
         else if frequency = "monthly" then addOneMonth current
         else current)
        (acc ++ [(current, current + duration)])
    else some acc

/-- Embedding of `#generateRecurringSlots(startDate, endDate, recurring,
timezone)`: the duration is computed once as `endDate - startDate` and applied
to every occurrence. -/
def generateRecurringSlots (fuel : Nat) (startDate endDate : Int) (r : Recurring) :
    Option (List (Int × Int)) :=
  genLoop (endDate - startDate) r.frequency r.untilDate fuel startDate []

/-- Embedding of `#validateAndConvertTime`.  Inputs are the already-parsed UTC
instants (the `isValid()` parse check is presupposed by taking instants); the
checks are, in source order: end after start, start not before now, and the
duration-in-minutes bounds read from `TIME_SLOTS` in `config/constants.js`
(passed here as the `minDur`/`maxDur` parameters).  The non-fatal DST warning
does not affect any state and is not modelled. -/
def validateAndConvertTime (minDur maxDur now startT endT : Int) :
    Except Err (Int × Int) :=
  if ¬ startT < endT then .error .endNotAfterStart
  else if startT < now then .error .pastStart
  else if endT - startT < minDur ∨ maxDur < endT - startT then .error .invalidDuration
  else .ok (startT, endT)

/-- Intersection test of `tsrange(s1, e1) && tsrange(s2, e2)` with the default
half-open `[)` bounds: two ranges intersect when both are non-empty and each
starts before the other ends. -/
def tsrangeOverlaps (s1 e1 s2 e2 : Int) : Bool :=
  decide (s1 < e1) && decide (s2 < e2) && decide (s1 < e2) && decide (s2 < e1)

/-- Embedding of `#checkOverlap(client, consultant_id, startTime, endTime)`:
the query selects slots of the consultant with `NOT is_booked` whose
`tsrange(start_time, end_time)` intersects the candidate range, and any hit
raises the overlap error. -/
def checkOverlap (db : List Slot) (cid : Nat) (startT endT : Int) :
    Except Err Unit :=
  if db.any (fun s => s.consultant_id == cid && !s.is_booked &&
      tsrangeOverlaps s.start_time s.end_time startT endT) then
    .error .slotOverlap
  else .ok ()

/-- Row inserted by `#createSingleSlot`: only `consultant_id`, `start_time`
and `end_time` are supplied, every other column takes its default. -/
def mkSlot (slotId cid : Nat) (startT endT : Int) : Slot :=
  { id := slotId, consultant_id := cid, customer_id := none, start_time := startT,
    end_time := endT, is_booked := false, is_cancelled := false,
    recurring_pattern_id := none }

/-- Result value of `createTimeSlot`: a single created slot, or the batch of
created recurring occurrences. -/
inductive CreateResult where
  | single (slot : Slot)
  | recurringBatch (slots : List Slot)
deriving DecidableEq, Repr

/-- Embedding of `createTimeSlot(consultant_id, start_time, end_time,
recurring, timezone)`.  After validation, a recurring request expands the
occurrences and inserts every one of them with no overlap check of any kind;
a single request checks `#checkOverlap` and then inserts.  The outer `Option`
is the generator fuel: `none` models the non-terminating recurring loop, and
an inner `Except.error` models the transaction rolling back with that
`AppError` (leaving the database unchanged). -/
def createTimeSlot (fuel : Nat) (minDur maxDur : Int) (now : Int) (db : List Slot)
    (nextId cid : Nat) (startT endT : Int) (recurring : Option Recurring) :
    Option (Except Err (CreateResult × List Slot)) :=
  match validateAndConvertTime minDur maxDur now startT endT with
  | .error e => some (.error e)
  | .ok (sUTC, eUTC) =>
    match recurring with
    | some r =>
      match generateRecurringSlots fuel sUTC eUTC r with
      | none => none
      | some occs =>
        let created := occs.enum.map (fun p => mkSlot (nextId + p.1) cid p.2.1 p.2.2)
        some (.ok (.recurringBatch created, db ++ created))
    | none =>
      match checkOverlap db cid sUTC eUTC with
      | .error e2 => some (.error e2)
      | .ok _ =>
        some (.ok (.single (mkSlot nextId cid sUTC eUTC), db ++ [mkSlot nextId cid sUTC eUTC]))

/-- Embedding of `deleteTimeSlot(slotId)`: look the row up, reject a missing
or booked slot, then run `DELETE FROM time_slots WHERE id = $1 AND NOT
is_booked`. -/
def deleteTimeSlot (db : List Slot) (slotId : Nat) : Except Err (List Slot) :=
  match db.find? (fun s => s.id == slotId) with
  | none => .error .slotNotFound
  | some slot =>
    if slot.is_booked then .error .cannotDeleteBooked
    else .ok (db.filter (fun s => !(s.id == slotId && !s.is_booked)))

/-- Modelled from the spec: `src/config/constants.js` is not present under
`src/`; the repository README documents the listing page size as
`limit (default: 20, max: 100)` and the test suite checks pages of at most
100 rows, so `PAGINATION.DEFAULT_LIMIT = 20`. -/
def PAGINATION_DEFAULT_LIMIT : Nat := 20

/-- Modelled from the spec: `src/config/constants.js` is not present under
`src/`; the repository README documents the listing page size as
`limit (default: 20, max: 100)` and the test suite checks pages of at most
100 rows, so `PAGINATION.MAX_LIMIT = 100`. -/
def PAGINATION_MAX_LIMIT : Nat := 100

/-- Query parameters of `getTimeSlots` after the controller-side parsing:
`start_date`/`end_date` hold the UTC instants produced by the
`moment.tz(...).startOf('day')` / `.endOf('day')` conversions, `date` holds a
SQL `DATE` literal as a day number, and `month` holds the `YYYY-MM` split. -/
structure ListQuery where
  consultant_id : Option Nat
  start_date : Option Int
  end_date : Option Int
  date : Option Int
  month : Option (Int × Int)
  page : Option Nat
  limit : Option Nat
  include_booked : Bool
deriving Repr

/-- The date, date-range and month conditions of the listing query's WHERE
clause (the period filters). -/
def matchesPeriod (q : ListQuery) (s : Slot) : Bool :=
  (match q.start_date with
   | none => true
   | some sd => decide (dayOfMinutes sd ≤ dayOfMinutes s.start_time)) &&
  (match q.end_date with
   | none => true
   | some ed => decide (dayOfMinutes s.start_time ≤ dayOfMinutes ed)) &&
  (match q.date with
   | none => true
   | some d => dayOfMinutes s.start_time == d) &&
  (match q.month with
   | none => true
   | some ym => yearOfMinutes s.start_time == ym.1 &&
       monthOfMinutes s.start_time == ym.2)

/-- Full WHERE clause of `getTimeSlots`: the unconditional
`ts.start_time >= NOW()`, the `is_booked` exclusion unless `include_booked`,
the consultant filter, and the period filters. -/
def matchesQuery (now : Int) (q : ListQuery) (s : Slot) : Bool :=
  decide (now ≤ s.start_time) &&
  (q.include_booked || !s.is_booked) &&
  (match q.consultant_id with
   | none => true
   | some c => s.consultant_id == c) &&
  matchesPeriod q s

/-- Comparison used to embed `ORDER BY ts.start_time`. -/
def slotLE (a b : Slot) : Prop := a.start_time ≤ b.start_time

instance : DecidableRel slotLE :=
  fun a b => inferInstanceAs (Decidable (a.start_time ≤ b.start_time))

instance : IsTotal Slot slotLE :=
  ⟨fun a b => Int.le_total a.start_time b.start_time⟩

instance : IsTrans Slot slotLE :=
  ⟨fun _ _ _ h1 h2 => le_trans h1 h2⟩

/-- Embedding of `getTimeSlots(query)`: clamp the requested page size with
`limit = Math.min(parseInt(query.limit) || PAGINATION.DEFAULT_LIMIT,
PAGINATION.MAX_LIMIT)` (a missing or zero `parseInt` falls back to the
default), filter with the WHERE clause, sort by start instant, and apply
`LIMIT limit OFFSET (page - 1) * limit`. -/
def getTimeSlots (now : Int) (db : List Slot) (q : ListQuery) : List Slot :=
  let lim := min
    (match q.limit with
     | none => PAGINATION_DEFAULT_LIMIT
     | some 0 => PAGINATION_DEFAULT_LIMIT
     | some n => n)
    PAGINATION_MAX_LIMIT
  let pageNum := match q.page with
    | none => 1
    | some 0 => 1
    | some n => n
  ((List.insertionSort slotLE (db.filter (matchesQuery now q))).drop
      ((pageNum - 1) * lim)).take lim

/-- The per-consultant overlap-freedom invariant on the unbooked slots of the
table: no two distinct non-cancelled, unbooked rows of the same consultant
have intersecting half-open intervals. -/
def overlapFree (db : List Slot) : Prop :=
  ∀ a ∈ db, ∀ b ∈ db, a.id ≠ b.id → a.consultant_id = b.consultant_id →
    a.is_booked = false → b.is_booked = false →
    a.is_cancelled = false → b.is_cancelled = false →
    tsrangeOverlaps a.start_time a.end_time b.start_time b.end_time = false

theorem find?_applyReserveUpdate (slotId customerId : Nat) (db : List Slot) :
    (applyReserveUpdate slotId customerId db).find? (fun s => s.id == slotId) =
      (db.find? (fun s => s.id == slotId)).map
        (fun s => if !s.is_booked then bookSlot customerId s else s) := by
  induction db with
  | nil => rfl
  | cons h t ih =>
    by_cases hid : h.id = slotId
    · by_cases hb : h.is_booked <;>
        simp [applyReserveUpdate, List.find?, hid, hb, bookSlot]
    · have hid' : (h.id == slotId) = false := by simp [hid]
      simpa [applyReserveUpdate, List.find?, hid'] using ih

theorem reserveTimeSlot_booked (db : List Slot) (slotId customerId : Nat) (slot : Slot)
    (hfind : db.find? (fun s => s.id == slotId) = some slot)
    (hbooked : slot.is_booked = true) :
    reserveTimeSlot db slotId customerId = .error .slotUnavailable := by
  simp [reserveTimeSlot, hfind, hbooked]

theorem reserveAll_booked (db : List Slot) (slotId : Nat) (slot : Slot) (cs : List Nat)
    (hfind : db.find? (fun s => s.id == slotId) = some slot)
    (hbooked : slot.is_booked = true) :
    reserveAll db slotId cs =
      (cs.map (fun _ => Except.error Err.slotUnavailable), db) := by
  induction cs with
  | nil => rfl
  | cons c cs ih =>
    simp [reserveAll, reserveTimeSlot_booked db slotId c slot hfind hbooked, ih]

theorem reserveTimeSlot_unbooked (db : List Slot) (slotId customerId : Nat) (slot : Slot)
    (hfind : db.find? (fun s => s.id == slotId) = some slot)
    (hunbooked : slot.is_booked = false) :
    reserveTimeSlot db slotId customerId =
      .ok (bookSlot customerId slot, applyReserveUpdate slotId customerId db) := by
  have hmem : slot ∈ db := List.mem_of_find?_eq_some hfind
  have hp : (slot.id == slotId) = true :=
    List.find?_some (p := fun (s : Slot) => s.id == slotId) hfind
  have hany : db.any (fun s => s.id == slotId && !s.is_booked) = true := by
    rw [List.any_eq_true]
    exact ⟨slot, hmem, by simp [hp, hunbooked]⟩
  simp [reserveTimeSlot, hfind, hunbooked, hany]

/-- C1.  Under the row-lock serialization provided by `SELECT ... FOR UPDATE`
inside one transaction, any group of N ≥ 2 reserve calls against an unbooked
slot — executed in an arbitrary serialization order `c0 :: rest` of distinct
customer ids — has exactly one successful call (the first in serialization
order); every other call fails with the `Time slot is not available` error,
and the persisted row's `customer_id` is the winner's id. -/
theorem reserve_race_exactly_one_winner (db : List Slot) (slotId : Nat) (slot : Slot)
    (cs : List Nat) (c0 : Nat) (rest : List Nat)
    (hfind : db.find? (fun s => s.id == slotId) = some slot)
    (hunbooked : slot.is_booked = false)
    (hcs : cs = c0 :: rest)
    (hlen : 2 ≤ cs.length)
    (hdistinct : cs.Nodup) :
    (reserveAll db slotId cs).1 =
        Except.ok (bookSlot c0 slot) ::
          rest.map (fun _ => Except.error Err.slotUnavailable) ∧
      ((reserveAll db slotId cs).1.countP isSuccess) = 1 ∧
      ((reserveAll db slotId cs).2.find? (fun s => s.id == slotId)) =
        some (bookSlot c0 slot) ∧
      (bookSlot c0 slot).customer_id = some c0 := by
  subst hcs
  have hstep := reserveTimeSlot_unbooked db slotId c0 slot hfind hunbooked
  have hfind' : (applyReserveUpdate slotId c0 db).find? (fun s => s.id == slotId) =
      some (bookSlot c0 slot) := by
    rw [find?_applyReserveUpdate, hfind]
    simp [hunbooked]
  have hrest := reserveAll_booked (applyReserveUpdate slotId c0 db) slotId
      (bookSlot c0 slot) rest hfind' (by simp [bookSlot])
  refine ⟨?_, ?_, ?_, rfl⟩
  · simp [reserveAll, hstep, hrest]
  · simp [reserveAll, hstep, hrest, isSuccess, List.countP_eq_zero]
  · simp [reserveAll, hstep, hrest, hfind']

theorem reserve_race_exactly_one_winner_witness :
    (reserveAll
        [{ id := 1, consultant_id := 1, customer_id := none, start_time := 600,
           end_time := 660, is_booked := false, is_cancelled := false,
           recurring_pattern_id := none }] 1 [5, 6]).1 =
        [Except.ok (bookSlot 5
          { id := 1, consultant_id := 1, customer_id := none, start_time := 600,
            end_time := 660, is_booked := false, is_cancelled := false,
            recurring_pattern_id := none }),
         Except.error Err.slotUnavailable] ∧
      ((reserveAll
        [{ id := 1, consultant_id := 1, customer_id := none, start_time := 600,
           end_time := 660, is_booked := false, is_cancelled := false,
           recurring_pattern_id := none }] 1 [5, 6]).1.countP isSuccess) = 1 ∧
      ((reserveAll
        [{ id := 1, consultant_id := 1, customer_id := none, start_time := 600,
           end_time := 660, is_booked := false, is_cancelled := false,
           recurring_pattern_id := none }] 1 [5, 6]).2.find?
            (fun s => s.id == 1)) =
        some (bookSlot 5
          { id := 1, consultant_id := 1, customer_id := none, start_time := 600,
            end_time := 660, is_booked := false, is_cancelled := false,
            recurring_pattern_id := none }) ∧
      (bookSlot 5
          { id := 1, consultant_id := 1, customer_id := none, start_time := 600,
            end_time := 660, is_booked := false, is_cancelled := false,
            recurring_pattern_id := none }).customer_id = some 5 :=
  reserve_race_exactly_one_winner _ 1 _ [5, 6] 5 [6]
    (by decide) (by decide) rfl (by decide) (by decide)

theorem genLoop_stuck (dur : Int) (freq : String) (untilT : Int)
    (hw : freq ≠ "weekly") (hm : freq ≠ "monthly") :
    ∀ (fuel : Nat) (current : Int) (acc : List (Int × Int)),
      current ≤ untilT → genLoop dur freq untilT fuel current acc = none := by
  intro fuel
  induction fuel with
  | zero => intro current acc _; rfl
  | succ n ih =>
    intro current acc hle
    simp only [genLoop, if_pos hle, if_neg hw, if_neg hm]
    exact ih current _ hle

/-- C10.  The `while` loop of the recurring generator advances `current` only
for the frequency strings `'weekly'` and `'monthly'`; for any other frequency
whose first start is not after `until`, the loop guard stays true forever and
the generator never terminates (it returns `none` at every fuel). -/
theorem generator_diverges_on_unknown_frequency (fuel : Nat)
    (startDate endDate : Int) (r : Recurring)
    (hw : r.frequency ≠ "weekly") (hm : r.frequency ≠ "monthly")
    (hle : startDate ≤ r.untilDate) :
    generateRecurringSlots fuel startDate endDate r = none :=
  genLoop_stuck (endDate - startDate) r.frequency r.untilDate hw hm fuel startDate [] hle

theorem generator_diverges_on_unknown_frequency_witness :
    generateRecurringSlots 5 0 60 { frequency := "daily", untilDate := 100000 } = none :=
  generator_diverges_on_unknown_frequency 5 0 60
    { frequency := "daily", untilDate := 100000 }
    (by decide) (by decide) (by decide)

/-- C7.  Evaluation at the failing input: a validated weekly recurring request
whose `until` (2020-07-15) precedes the first start (2025-03-22T16:00Z)
expands to zero occurrences, and `createTimeSlot` commits successfully with an
empty batch instead of failing with a caller input error — contradicting
the spec and the repository's own test that expects a 400 response for a past
`until` date. -/
theorem create_recurring_empty_series_succeeds :
    createTimeSlot 5 30 480 (utcMinutes 2025 3 1 0 0) [] 1 1
        (utcMinutes 2025 3 22 16 0) (utcMinutes 2025 3 22 17 0)
        (some { frequency := "weekly", untilDate := utcMinutes 2020 7 15 0 0 }) =
      some (.ok (.recurringBatch [], [])) ∧
    generateRecurringSlots 5 (utcMinutes 2025 3 22 16 0) (utcMinutes 2025 3 22 17 0)
        { frequency := "weekly", untilDate := utcMinutes 2020 7 15 0 0 } = some [] :=
  ⟨rfl, rfl⟩

theorem genLoop_duration (dur : Int) (freq : String) (untilT : Int) :
    ∀ (fuel : Nat) (current : Int) (acc : List (Int × Int)) (l : List (Int × Int)),
      (∀ p ∈ acc, p.2 - p.1 = dur) →
      genLoop dur freq untilT fuel current acc = some l →
      ∀ p ∈ l, p.2 - p.1 = dur := by
  intro fuel
  induction fuel with
  | zero => intro current acc l _ h; exact absurd h (by simp [genLoop])
  | succ n ih =>
    intro current acc l hacc h
    by_cases hle : current ≤ untilT
    · simp only [genLoop, if_pos hle] at h
      refine ih _ _ l ?_ h
      intro p hp
      rcases List.mem_append.1 hp with hp | hp
      · exact hacc p hp
      · simp only [List.mem_singleton] at hp
        subst hp
        ring
    · simp only [genLoop, if_neg hle, Option.some.injEq] at h
      subst h
      exact hacc

/-- C6 (amended).  The weekly expansion from 2025-03-09T06:00Z–08:00Z with
`until = 2025-03-23` produces exactly two occurrences — March 9 and
March 16 — whether `until` is read as 2025-03-23T00:00Z (as in the
repository's own DST test) or as midnight America/New_York
(2025-03-23T04:00Z): the March 23 candidate start (06:00Z) exceeds both.
Moreover, in full generality, every occurrence produced by the generator has
UTC duration equal to `firstEndUTC - firstStartUTC`. -/
theorem weekly_dst_expansion_two_occurrences :
    (generateRecurringSlots 10 (utcMinutes 2025 3 9 6 0) (utcMinutes 2025 3 9 8 0)
        { frequency := "weekly", untilDate := utcMinutes 2025 3 23 0 0 } =
      some [(utcMinutes 2025 3 9 6 0, utcMinutes 2025 3 9 8 0),
            (utcMinutes 2025 3 16 6 0, utcMinutes 2025 3 16 8 0)]) ∧
    (generateRecurringSlots 10 (utcMinutes 2025 3 9 6 0) (utcMinutes 2025 3 9 8 0)
        { frequency := "weekly", untilDate := utcMinutes 2025 3 23 4 0 } =
      some [(utcMinutes 2025 3 9 6 0, utcMinutes 2025 3 9 8 0),
            (utcMinutes 2025 3 16 6 0, utcMinutes 2025 3 16 8 0)]) ∧
    (∀ (fuel : Nat) (startDate endDate : Int) (r : Recurring) (l : List (Int × Int)),
      generateRecurringSlots fuel startDate endDate r = some l →
      ∀ p ∈ l, p.2 - p.1 = endDate - startDate) := by
  refine ⟨by decide, by decide, ?_⟩
  intro fuel startDate endDate r l h
  exact genLoop_duration (endDate - startDate) r.frequency r.untilDate fuel startDate [] l
    (by simp) h

theorem weekly_dst_expansion_two_occurrences_witness :
    utcMinutes 2025 3 16 8 0 - utcMinutes 2025 3 16 6 0 =
      utcMinutes 2025 3 9 8 0 - utcMinutes 2025 3 9 6 0 :=
  weekly_dst_expansion_two_occurrences.2.2 10
    (utcMinutes 2025 3 9 6 0) (utcMinutes 2025 3 9 8 0)
    { frequency := "weekly", untilDate := utcMinutes 2025 3 23 0 0 }
    [(utcMinutes 2025 3 9 6 0, utcMinutes 2025 3 9 8 0),
     (utcMinutes 2025 3 16 6 0, utcMinutes 2025 3 16 8 0)]
    (by decide)
    (utcMinutes 2025 3 16 6 0, utcMinutes 2025 3 16 8 0) (by decide)

/-- C6 (counterexample to the claim as stated).  The expansion yields two
occurrences, not three, for both readings of `until = 2025-03-23`. -/
theorem weekly_dst_expansion_not_three_occurrences :
    (generateRecurringSlots 10 (utcMinutes 2025 3 9 6 0) (utcMinutes 2025 3 9 8 0)
        { frequency := "weekly", untilDate := utcMinutes 2025 3 23 0 0 }).map
      List.length = some 2 ∧
    (generateRecurringSlots 10 (utcMinutes 2025 3 9 6 0) (utcMinutes 2025 3 9 8 0)
        { frequency := "weekly", untilDate := utcMinutes 2025 3 23 4 0 }).map
      List.length = some 2 := by
  exact ⟨by decide, by decide⟩

/-- C4.  Evaluation at the failing input: with an unbooked slot
2025-03-22T16:00Z–17:00Z already persisted for consultant 1, a weekly
recurring request for the identical interval is persisted without any overlap
check and reported as a success — the batch is created even though its only
occurrence collides with a persisted unbooked slot. -/
theorem create_recurring_ignores_overlap :
    createTimeSlot 5 30 480 (utcMinutes 2025 3 1 0 0)
        [mkSlot 1 1 (utcMinutes 2025 3 22 16 0) (utcMinutes 2025 3 22 17 0)] 2 1
        (utcMinutes 2025 3 22 16 0) (utcMinutes 2025 3 22 17 0)
        (some { frequency := "weekly", untilDate := utcMinutes 2025 3 29 0 0 }) =
      some (.ok
        (.recurringBatch
          [mkSlot 2 1 (utcMinutes 2025 3 22 16 0) (utcMinutes 2025 3 22 17 0)],
         [mkSlot 1 1 (utcMinutes 2025 3 22 16 0) (utcMinutes 2025 3 22 17 0),
          mkSlot 2 1 (utcMinutes 2025 3 22 16 0) (utcMinutes 2025 3 22 17 0)])) ∧
    tsrangeOverlaps (utcMinutes 2025 3 22 16 0) (utcMinutes 2025 3 22 17 0)
        (utcMinutes 2025 3 22 16 0) (utcMinutes 2025 3 22 17 0) = true ∧
    (mkSlot 1 1 (utcMinutes 2025 3 22 16 0) (utcMinutes 2025 3 22 17 0)).is_booked
      = false := by
  refine ⟨rfl, by decide, rfl⟩

theorem checkOverlap_ok_iff (db : List Slot) (cid : Nat) (bs be : Int) :
    checkOverlap db cid bs be = .ok () ↔
      ∀ s ∈ db, ¬(s.consultant_id = cid ∧ s.is_booked = false ∧
        tsrangeOverlaps s.start_time s.end_time bs be = true) := by
  unfold checkOverlap
  by_cases h : db.any (fun s => s.consultant_id == cid && !s.is_booked &&
      tsrangeOverlaps s.start_time s.end_time bs be) = true
  · rw [if_pos h]
    constructor
    · intro hcontra; cases hcontra
    · intro hall
      rcases List.any_eq_true.1 h with ⟨s, hmem, hs⟩
      simp only [Bool.and_eq_true, beq_iff_eq, Bool.not_eq_true'] at hs
      exact absurd ⟨hs.1.1, hs.1.2, hs.2⟩ (hall s hmem)
  · rw [if_neg h]
    simp only [true_iff]
    intro s hmem hcontra
    exact h (List.any_eq_true.2 ⟨s, hmem,
      by simp [hcontra.1, hcontra.2.1, hcontra.2.2]⟩)

theorem validateAndConvertTime_ok (minDur maxDur now bs be : Int)
    (hend : bs < be) (hpast : now ≤ bs)
    (hdmin : minDur ≤ be - bs) (hdmax : be - bs ≤ maxDur) :
    validateAndConvertTime minDur maxDur now bs be = .ok (bs, be) := by
  unfold validateAndConvertTime
  rw [if_neg (not_not_intro hend), if_neg (not_lt.2 hpast),
    if_neg (by push_neg; exact ⟨hdmin, hdmax⟩)]

/-- C3 (amended).  For a candidate interval `[bs, be)` that passes the
creation-time validation (end after start, start not in the past, duration
within the configured bounds), single-slot creation succeeds — inserting the
slot — if and only if the candidate intersects no persisted unbooked slot of
the consultant under the half-open `tsrange` semantics (so two intervals that
merely touch at a boundary do not conflict), and when some unbooked slot does
genuinely intersect it, creation fails with the overlap error. -/
theorem create_single_succeeds_iff_no_overlap
    (fuel : Nat) (minDur maxDur now : Int) (db : List Slot) (nextId cid : Nat)
    (bs be : Int)
    (hend : bs < be) (hpast : now ≤ bs)
    (hdmin : minDur ≤ be - bs) (hdmax : be - bs ≤ maxDur) :
    (createTimeSlot fuel minDur maxDur now db nextId cid bs be none =
        some (.ok (.single (mkSlot nextId cid bs be), db ++ [mkSlot nextId cid bs be]))
      ↔ ∀ s ∈ db, ¬(s.consultant_id = cid ∧ s.is_booked = false ∧
          tsrangeOverlaps s.start_time s.end_time bs be = true)) ∧
    ((∃ s ∈ db, s.consultant_id = cid ∧ s.is_booked = false ∧
        tsrangeOverlaps s.start_time s.end_time bs be = true) →
      createTimeSlot fuel minDur maxDur now db nextId cid bs be none =
        some (.error .slotOverlap)) := by
  have hval := validateAndConvertTime_ok minDur maxDur now bs be hend hpast hdmin hdmax
  by_cases hov : checkOverlap db cid bs be = .ok ()
  · constructor
    · rw [iff_true_right ((checkOverlap_ok_iff db cid bs be).1 hov)]
      simp [createTimeSlot, hval, hov]
    · intro hex
      rcases hex with ⟨s, hmem, hs⟩
      exact absurd hs ((checkOverlap_ok_iff db cid bs be).1 hov s hmem)
  · have herr : checkOverlap db cid bs be = .error .slotOverlap := by
      unfold checkOverlap at hov ⊢
      by_cases h : db.any (fun s => s.consultant_id == cid && !s.is_booked &&
          tsrangeOverlaps s.start_time s.end_time bs be) = true
      · rw [if_pos h]
      · exact absurd (by rw [if_neg h]) hov
    constructor
    · rw [iff_false_right (fun hall => hov ((checkOverlap_ok_iff db cid bs be).2 hall))]
      simp [createTimeSlot, hval, herr]
    · intro _
      simp [createTimeSlot, hval, herr]

/-- C3 (counterexample to the claim as stated).  A candidate with
`end > start` that intersects nothing can still fail to be created: here the
candidate `[1000, 1060)` lies in the past (`now = 2000`), so creation fails
with the past-start error even though it does not intersect the consultant's
only persisted unbooked slot `[3000, 3060)`. -/
theorem create_single_not_iff_overlap_alone :
    createTimeSlot 1 30 480 2000 [mkSlot 1 1 3000 3060] 2 1 1000 1060 none =
      some (.error .pastStart) ∧
    tsrangeOverlaps 3000 3060 1000 1060 = false ∧
    (1000 : Int) < 1060 :=
  ⟨rfl, by decide, by decide⟩

theorem create_single_succeeds_iff_no_overlap_witness :
    createTimeSlot 1 30 480 0 [mkSlot 1 1 600 660] 2 1 660 720 none =
      some (.ok (.single (mkSlot 2 1 660 720),
        [mkSlot 1 1 600 660, mkSlot 2 1 660 720])) :=
  (create_single_succeeds_iff_no_overlap 1 30 480 0 [mkSlot 1 1 600 660] 2 1 660 720
    (by decide) (by decide) (by decide) (by decide)).1.mpr (by decide)

theorem tsrangeOverlaps_symm (s1 e1 s2 e2 : Int) :
    tsrangeOverlaps s1 e1 s2 e2 = tsrangeOverlaps s2 e2 s1 e1 := by
  unfold tsrangeOverlaps
  by_cases h1 : s1 < e1 <;> by_cases h2 : s2 < e2 <;>
    by_cases h3 : s1 < e2 <;> by_cases h4 : s2 < e1 <;>
    simp [h1, h2, h3, h4]

theorem createTimeSlot_single_ok_inv
    (fuel : Nat) (minDur maxDur now : Int) (db : List Slot) (nextId cid : Nat)
    (bs be : Int) (res : CreateResult) (db' : List Slot)
    (h : createTimeSlot fuel minDur maxDur now db nextId cid bs be none =
      some (.ok (res, db'))) :
    checkOverlap db cid bs be = .ok () ∧
    db' = db ++ [mkSlot nextId cid bs be] := by
  unfold createTimeSlot at h
  cases hval : validateAndConvertTime minDur maxDur now bs be with
  | error e => rw [hval] at h; simp at h
  | ok p =>
    have hp : p = (bs, be) := by
      unfold validateAndConvertTime at hval
      split_ifs at hval
      · injection hval with hval'
        exact hval'.symm
    subst hp
    rw [hval] at h
    simp only at h
    cases hchk : checkOverlap db cid bs be with
    | error e2 => rw [hchk] at h; simp at h
    | ok u =>
      cases u
      rw [hchk] at h
      cases h
      exact ⟨rfl, rfl⟩

theorem reserveTimeSlot_ok_inv (db : List Slot) (slotId customerId : Nat)
    (s : Slot) (db' : List Slot)
    (h : reserveTimeSlot db slotId customerId = .ok (s, db')) :
    db' = applyReserveUpdate slotId customerId db := by
  unfold reserveTimeSlot at h
  cases hf : db.find? (fun x => x.id == slotId) with
  | none => rw [hf] at h; cases h
  | some slot =>
    rw [hf] at h
    simp only at h
    split_ifs at h with h1 h2 <;> cases h <;> rfl

theorem deleteTimeSlot_ok_inv (db : List Slot) (slotId : Nat) (db' : List Slot)
    (h : deleteTimeSlot db slotId = .ok db') :
    db' = db.filter (fun s => !(s.id == slotId && !s.is_booked)) := by
  unfold deleteTimeSlot at h
  cases hf : db.find? (fun x => x.id == slotId) with
  | none => rw [hf] at h; cases h
  | some slot =>
    rw [hf] at h
    simp only at h
    split_ifs at h with h1 <;> cases h <;> rfl

/-- C2 (amended).  Each of the three committed mutating operations that are
guarded — single-slot creation, reservation, and deletion — preserves the
per-consultant overlap-freedom invariant on unbooked, non-cancelled slots:
creation checks the candidate against every unbooked slot of the consultant,
reservation only moves a row out of the unbooked set, and deletion only
removes rows.  (The invariant does not extend to pairs involving a booked
slot, and recurring batch creation performs no overlap check at all — see the
counterexample and C4.) -/
theorem overlap_invariant_preserved :
    (∀ (fuel : Nat) (minDur maxDur now : Int) (db : List Slot)
        (nextId cid : Nat) (bs be : Int) (res : CreateResult) (db' : List Slot),
      createTimeSlot fuel minDur maxDur now db nextId cid bs be none =
          some (.ok (res, db')) →
      overlapFree db → overlapFree db') ∧
    (∀ (db : List Slot) (slotId customerId : Nat) (s : Slot) (db' : List Slot),
      reserveTimeSlot db slotId customerId = .ok (s, db') →
      overlapFree db → overlapFree db') ∧
    (∀ (db : List Slot) (slotId : Nat) (db' : List Slot),
      deleteTimeSlot db slotId = .ok db' →
      overlapFree db → overlapFree db') := by
  refine ⟨?_, ?_, ?_⟩
  · intro fuel minDur maxDur now db nextId cid bs be res db' h hinv
    obtain ⟨hchk, hdb'⟩ := createTimeSlot_single_ok_inv fuel minDur maxDur now db
      nextId cid bs be res db' h
    subst hdb'
    have hno := (checkOverlap_ok_iff db cid bs be).1 hchk
    intro a ha b hb hid hcid hab hbb hac hbc
    rcases List.mem_append.1 ha with ha' | ha' <;>
      rcases List.mem_append.1 hb with hb' | hb'
    · exact hinv a ha' b hb' hid hcid hab hbb hac hbc
    · simp only [List.mem_singleton] at hb'
      subst hb'
      have hacid : a.consultant_id = cid := by simpa [mkSlot] using hcid
      have := hno a ha'
      rw [Bool.eq_false_iff]
      intro hcontra
      exact this ⟨hacid, hab, by simpa [mkSlot] using hcontra⟩
    · simp only [List.mem_singleton] at ha'
      subst ha'
      have hbcid : b.consultant_id = cid := by
        simpa [mkSlot] using hcid.symm
      have := hno b hb'
      rw [Bool.eq_false_iff]
      intro hcontra
      refine this ⟨hbcid, hbb, ?_⟩
      rw [tsrangeOverlaps_symm] at hcontra
      simpa [mkSlot] using hcontra
    · simp only [List.mem_singleton] at ha' hb'
      subst ha'; subst hb'
      exact absurd rfl hid
  · intro db slotId customerId s db' h hinv
    have hdb' := reserveTimeSlot_ok_inv db slotId customerId s db' h
    subst hdb'
    intro a ha b hb hid hcid hab hbb hac hbc
    rcases List.mem_map.1 ha with ⟨a0, ha0, hfa⟩
    rcases List.mem_map.1 hb with ⟨b0, hb0, hfb⟩
    have hfa' : a = a0 := by
      by_cases hca : (a0.id == slotId && !a0.is_booked) = true
      · rw [if_pos hca] at hfa
        subst hfa
        simp [bookSlot] at hab
      · rw [if_neg hca] at hfa
        exact hfa.symm
    have hfb' : b = b0 := by
      by_cases hcb : (b0.id == slotId && !b0.is_booked) = true
      · rw [if_pos hcb] at hfb
        subst hfb
        simp [bookSlot] at hbb
      · rw [if_neg hcb] at hfb
        exact hfb.symm
    subst hfa'; subst hfb'
    exact hinv a ha0 b hb0 hid hcid hab hbb hac hbc
  · intro db slotId db' h hinv
    have hdb' := deleteTimeSlot_ok_inv db slotId db' h
    subst hdb'
    intro a ha b hb hid hcid hab hbb hac hbc
    exact hinv a (List.mem_of_mem_filter ha) b (List.mem_of_mem_filter hb)
      hid hcid hab hbb hac hbc

/-- C2 (counterexample to the claim as stated).  The overlap check filters on
`NOT is_booked`, so a committed single-slot creation can leave two
non-cancelled slots of the same consultant with identical `[600, 660)`
intervals where one of the two is booked. -/
theorem overlap_invariant_violated_with_booked_slot :
    createTimeSlot 1 30 480 0
        [{ id := 1, consultant_id := 1, customer_id := some 9, start_time := 600,
           end_time := 660, is_booked := true, is_cancelled := false,
           recurring_pattern_id := none }] 2 1 600 660 none =
      some (.ok (.single (mkSlot 2 1 600 660),
        [{ id := 1, consultant_id := 1, customer_id := some 9, start_time := 600,
           end_time := 660, is_booked := true, is_cancelled := false,
           recurring_pattern_id := none }, mkSlot 2 1 600 660])) ∧
    tsrangeOverlaps 600 660 600 660 = true ∧
    (mkSlot 2 1 600 660).is_cancelled = false ∧
    (mkSlot 2 1 600 660).consultant_id = 1 ∧
    (1 : Nat) ≠ (mkSlot 2 1 600 660).id :=
  ⟨rfl, by decide, rfl, rfl, by decide⟩

theorem overlap_invariant_preserved_witness :
    overlapFree [mkSlot 1 1 600 660, mkSlot 2 1 660 720] :=
  overlap_invariant_preserved.1 1 30 480 0 [mkSlot 1 1 600 660] 2 1 660 720
    (.single (mkSlot 2 1 660 720)) [mkSlot 1 1 600 660, mkSlot 2 1 660 720]
    rfl (by unfold overlapFree; decide)

/-- C5 (amended).  `deleteTimeSlot` on a booked slot fails with the
`Cannot delete booked time slots` error; on an unbooked slot it removes just
the targeted row (the `DELETE` statement filters on `id = $1`), so every
other row — in particular every other occurrence of the same recurrence
pattern, booked or not — survives the deletion. -/
theorem delete_removes_only_target (db : List Slot) (slotId : Nat) (slot : Slot)
    (hfind : db.find? (fun s => s.id == slotId) = some slot) :
    (slot.is_booked = true →
      deleteTimeSlot db slotId = .error .cannotDeleteBooked) ∧
    (slot.is_booked = false →
      deleteTimeSlot db slotId =
        .ok (db.filter (fun s => !(s.id == slotId && !s.is_booked))) ∧
      ∀ x ∈ db, x.id ≠ slotId →
        x ∈ db.filter (fun s => !(s.id == slotId && !s.is_booked))) := by
  constructor
  · intro hb
    simp [deleteTimeSlot, hfind, hb]
  · intro hb
    refine ⟨by simp [deleteTimeSlot, hfind, hb], ?_⟩
    intro x hx hxid
    refine List.mem_filter.2 ⟨hx, ?_⟩
    simp [hxid]

/-- C5 (counterexample to the claim as stated).  Two unbooked future
occurrences of recurrence pattern 7; deleting the first leaves the second in
the table, although the claim requires every currently-unbooked future
occurrence of the pattern to be removed. -/
theorem delete_does_not_cascade_to_pattern_siblings :
    deleteTimeSlot
        [{ id := 1, consultant_id := 1, customer_id := none,
           start_time := utcMinutes 2025 3 9 6 0,
           end_time := utcMinutes 2025 3 9 7 0,
           is_booked := false, is_cancelled := false,
           recurring_pattern_id := some 7 },
         { id := 2, consultant_id := 1, customer_id := none,
           start_time := utcMinutes 2025 3 16 6 0,
           end_time := utcMinutes 2025 3 16 7 0,
           is_booked := false, is_cancelled := false,
           recurring_pattern_id := some 7 }] 1 =
      .ok [{ id := 2, consultant_id := 1, customer_id := none,
             start_time := utcMinutes 2025 3 16 6 0,
             end_time := utcMinutes 2025 3 16 7 0,
             is_booked := false, is_cancelled := false,
             recurring_pattern_id := some 7 }] ∧
    utcMinutes 2025 3 1 0 0 ≤ utcMinutes 2025 3 16 6 0 :=
  ⟨rfl, by decide⟩

theorem delete_removes_only_target_witness :
    deleteTimeSlot [mkSlot 1 1 600 660] 1 =
      .ok ([mkSlot 1 1 600 660].filter (fun s => !(s.id == 1 && !s.is_booked))) :=
  ((delete_removes_only_target [mkSlot 1 1 600 660] 1 (mkSlot 1 1 600 660)
    rfl).2 rfl).1

/-- C8.  Every listing result is ordered by start instant ascending, and its
length never exceeds the server-side maximum page size, whatever page size
the client requests (the service clamps with
`Math.min(parseInt(query.limit) || DEFAULT_LIMIT, MAX_LIMIT)`). -/
theorem listing_sorted_and_bounded (now : Int) (db : List Slot) (q : ListQuery) :
    List.Sorted slotLE (getTimeSlots now db q) ∧
    (getTimeSlots now db q).length ≤ PAGINATION_MAX_LIMIT := by
  unfold getTimeSlots
  constructor
  · exact List.Pairwise.sublist
      ((List.take_sublist _ _).trans (List.drop_sublist _ _))
      (List.sorted_insertionSort slotLE _)
  · exact le_trans (List.length_take_le _ _) (Nat.min_le_right _ _)

/-- C9.  The WHERE clause contains the unconditional
`ts.start_time >= NOW()`, so every returned slot starts at or after the query
time; consequently, when every slot matching the requested date / range /
month period lies in the past, the query returns an empty page instead of
historical slots. -/
theorem listing_excludes_past_slots (now : Int) (db : List Slot) (q : ListQuery) :
    (∀ s ∈ getTimeSlots now db q, now ≤ s.start_time) ∧
    ((∀ s ∈ db, matchesPeriod q s = true → s.start_time < now) →
      getTimeSlots now db q = []) := by
  constructor
  · intro s hs
    unfold getTimeSlots at hs
    have hs1 : s ∈ List.insertionSort slotLE (db.filter (matchesQuery now q)) :=
      List.Sublist.subset
        ((List.take_sublist _ _).trans (List.drop_sublist _ _)) hs
    have hs2 : s ∈ db.filter (matchesQuery now q) :=
      (List.perm_insertionSort slotLE _).subset hs1
    have hq : matchesQuery now q s = true := List.of_mem_filter hs2
    simp only [matchesQuery, Bool.and_eq_true, decide_eq_true_eq] at hq
    exact hq.1.1.1
  · intro hpast
    have hfil : db.filter (matchesQuery now q) = [] := by
      rw [List.filter_eq_nil_iff]
      intro a ha hq
      simp only [matchesQuery, Bool.and_eq_true, decide_eq_true_eq] at hq
      exact absurd (hpast a ha hq.2) (not_lt.2 hq.1.1.1)
    unfold getTimeSlots
    rw [hfil]
    simp [List.insertionSort]

theorem listing_excludes_past_slots_witness :
    getTimeSlots 1000000
      [{ id := 1, consultant_id := 1, customer_id := none, start_time := 500,
         end_time := 560, is_booked := false, is_cancelled := false,
         recurring_pattern_id := none }]
      { consultant_id := none, start_date := none, end_date := none,
        date := none, month := some (1970, 1), page := none, limit := none,
        include_booked := false } = [] :=
  (listing_excludes_past_slots 1000000
    [{ id := 1, consultant_id := 1, customer_id := none, start_time := 500,
       end_time := 560, is_booked := false, is_cancelled := false,
       recurring_pattern_id := none }]
    { consultant_id := none, start_date := none, end_date := none,
      date := none, month := some (1970, 1), page := none, limit := none,
      include_booked := false }).2 (by decide)
